import Mathlib

/-!
Verification of the dynamic value-marshalling and typed-access layer of an
mpv client library (the `mpv-client` crate): the recursive `Node` value
type, its bidirectional conversion to and from the native `mpv_node`
tagged union (`from_mpv_node` / `to_mpv_node`), the `Format` trait and its
five implementations, the event decoder (`Event::from_ptr`), the property
accessor (`Property::data`), the `result!` macro and the error type.

Modelling conventions:
- Machine strings are byte lists (`List Nat`); a null pointer is `Option.none`.
- `f64` payloads are carried opaquely as `F64` (a wrapper of their bit
  pattern): the code only stores and reloads them unchanged.
- Rust panics (`unwrap`, `expect`, `assert!`) are the `RRes.panic` outcome
  (or `Option.none` for functions whose only failure mode is a panic);
  undefined behaviour from violated pointer preconditions is also modelled
  as `RRes.panic` - no claim exercises those branches except where the code
  checks for null explicitly.
- Heap allocation (`libc::malloc`) is modelled as always succeeding; the
  code's panic on a null `malloc` return is an environmental condition
  outside the shallow embedding.
-/

namespace Mpv

/-! ### UTF-8 validation and lossy decoding

`str::from_utf8` / `CStr::to_str` succeed exactly on well-formed UTF-8;
`to_string_lossy` replaces each maximal subpart of an ill-formed
subsequence with U+FFFD (bytes EF BF BD), per the std library's documented
substitution policy. Both are modelled byte-exactly below. -/

/-- A UTF-8 continuation byte: `0x80 ..= 0xBF`. -/
def utf8Cont (b : Nat) : Bool := 0x80 ≤ b && b ≤ 0xBF

/-- Lead byte of a two-byte sequence: `0xC2 ..= 0xDF`. -/
def isLead2 (b : Nat) : Bool := 0xC2 ≤ b && b ≤ 0xDF

/-- Lead byte of a three-byte sequence: `0xE0 ..= 0xEF`. -/
def isLead3 (b : Nat) : Bool := 0xE0 ≤ b && b ≤ 0xEF

/-- Lead byte of a four-byte sequence: `0xF0 ..= 0xF4`. -/
def isLead4 (b : Nat) : Bool := 0xF0 ≤ b && b ≤ 0xF4

/-- Valid second byte after lead `b` (narrower ranges for `E0`, `ED`,
`F0`, `F4` rule out overlong encodings and surrogates). -/
def utf8Snd (b c : Nat) : Bool :=
  if b = 0xE0 then 0xA0 ≤ c && c ≤ 0xBF
  else if b = 0xED then 0x80 ≤ c && c ≤ 0x9F
  else if b = 0xF0 then 0x90 ≤ c && c ≤ 0xBF
  else if b = 0xF4 then 0x80 ≤ c && c ≤ 0x8F
  else utf8Cont c

/-- The UTF-8 encoding of U+FFFD REPLACEMENT CHARACTER. -/
def replChar : List Nat := [0xEF, 0xBF, 0xBD]

/-- `String::from_utf8_lossy` on a byte list: well-formed sequences are
copied; each maximal subpart of an ill-formed sequence becomes `replChar`. -/
def utf8Lossy : List Nat → List Nat
| [] => []
| b :: rest =>
  if b ≤ 0x7F then b :: utf8Lossy rest
  else if isLead2 b then
    match rest with
    | [] => replChar
    | c :: rest2 =>
      if utf8Cont c then b :: c :: utf8Lossy rest2
      else replChar ++ utf8Lossy (c :: rest2)
  else if isLead3 b then
    match rest with
    | [] => replChar
    | c :: rest2 =>
      if utf8Snd b c then
        match rest2 with
        | [] => replChar
        | d :: rest3 =>
          if utf8Cont d then b :: c :: d :: utf8Lossy rest3
          else replChar ++ utf8Lossy (d :: rest3)
      else replChar ++ utf8Lossy (c :: rest2)
  else if isLead4 b then
    match rest with
    | [] => replChar
    | c :: rest2 =>
      if utf8Snd b c then
        match rest2 with
        | [] => replChar
        | d :: rest3 =>
          if utf8Cont d then
            match rest3 with
            | [] => replChar
            | e :: rest4 =>
              if utf8Cont e then b :: c :: d :: e :: utf8Lossy rest4
              else replChar ++ utf8Lossy (e :: rest4)
          else replChar ++ utf8Lossy (d :: rest3)
      else replChar ++ utf8Lossy (c :: rest2)
  else replChar ++ utf8Lossy rest

/-- Well-formedness of a byte list as UTF-8 (`str::from_utf8` succeeds). -/
def isValidUtf8 : List Nat → Bool
| [] => true
| b :: rest =>
  if b ≤ 0x7F then isValidUtf8 rest
  else if isLead2 b then
    match rest with
    | [] => false
    | c :: rest2 => utf8Cont c && isValidUtf8 rest2
  else if isLead3 b then
    match rest with
    | [] => false
    | c :: rest2 =>
      utf8Snd b c &&
        match rest2 with
        | [] => false
        | d :: rest3 => utf8Cont d && isValidUtf8 rest3
  else if isLead4 b then
    match rest with
    | [] => false
    | c :: rest2 =>
      utf8Snd b c &&
        match rest2 with
        | [] => false
        | d :: rest3 =>
          utf8Cont d &&
            match rest3 with
            | [] => false
            | e :: rest4 => utf8Cont e && isValidUtf8 rest4
  else false

/-- Lossy decoding is the identity on well-formed UTF-8. -/
theorem lossy_of_valid : ∀ l, isValidUtf8 l = true → utf8Lossy l = l := by
  intro l
  induction l using utf8Lossy.induct <;> intro hv <;>
    rw [isValidUtf8.eq_def] at hv <;>
    rw [utf8Lossy.eq_def] <;>
    (try simp only [*, Bool.and_eq_true, if_true, if_false, ite_true, ite_false] at hv ⊢) <;>
    simp_all

/-! ### Native constants

Error codes and event discriminants are taken from the repository's own
declaration of the native enums (`src/ffi.rs`). -/

/-- `mpv_error::SUCCESS` (src/ffi.rs). -/
def mpv_error_MPV_ERROR_SUCCESS : Int := 0

/-- `mpv_error::PROPERTY_NOT_FOUND` (src/ffi.rs). -/
def mpv_error_MPV_ERROR_PROPERTY_NOT_FOUND : Int := -8

/-- `mpv_error::GENERIC` (src/ffi.rs). -/
def mpv_error_MPV_ERROR_GENERIC : Int := -20

/-- `mpv_error::NOMEM` (src/ffi.rs). -/
def mpv_error_MPV_ERROR_NOMEM : Int := -2

/-- Modelled from the spec: the numeric format tags of the native
`mpv_format` enum, whose bindgen-generated declaration is not under
`src/`. The spec (§3, §6) fixes 0=none (absent tag), 1=string, 3=boolean
flag, 4=int64, 5=double, 6=node and 7=byte-array; it does not number the
recursive list and map tags, which here receive the fresh distinct values
8 and 9. No claim depends on the particular values of the byte-array,
node-array or node-map tags, only on their being distinct from the scalar
tags and from each other. -/
def mpv_format_MPV_FORMAT_NONE : Nat := 0

/-- Format tag for strings (spec §6: 1=string). -/
def mpv_format_MPV_FORMAT_STRING : Nat := 1

/-- Format tag for boolean flags (spec §6: 3=boolean). -/
def mpv_format_MPV_FORMAT_FLAG : Nat := 3

/-- Format tag for signed 64-bit integers (spec §6: 4=int64). -/
def mpv_format_MPV_FORMAT_INT64 : Nat := 4

/-- Format tag for 64-bit floats (spec §6: 5=double). -/
def mpv_format_MPV_FORMAT_DOUBLE : Nat := 5

/-- Format tag for recursive tagged nodes (spec §6: 6=node). -/
def mpv_format_MPV_FORMAT_NODE : Nat := 6

/-- Format tag for byte arrays (spec §6: 7=byte-array). -/
def mpv_format_MPV_FORMAT_BYTE_ARRAY : Nat := 7

/-- Format tag for node arrays (see `mpv_format_MPV_FORMAT_NONE`). -/
def mpv_format_MPV_FORMAT_NODE_ARRAY : Nat := 8

/-- Format tag for node maps (see `mpv_format_MPV_FORMAT_NONE`). -/
def mpv_format_MPV_FORMAT_NODE_MAP : Nat := 9

/-! ### Basic carriers -/

/-- An `f64` value, carried opaquely by its bit pattern: the code under
verification only stores and reloads doubles unchanged. -/
structure F64 where
  bits : Int
deriving DecidableEq

/-- The outcome of a fallible Rust computation: `Ok`, `Err(Error(code))`,
or a panic/abort (`unwrap`, `expect`, `assert!`; also stands for undefined
behaviour of a violated pointer precondition, which no claim exercises). -/
inductive RRes (α : Type) where
| ok (val : α)
| err (code : Int)
| panic
deriving DecidableEq

/-- `Result::ok()`: the success value, if any. -/
def RRes.toOption {α : Type} : RRes α → Option α
| .ok a => some a
| .err _ => Option.none
| .panic => Option.none

/-- `CString::new(bytes)`: fails (with `NulError`) exactly when the bytes
contain an embedded `0`; on success the C string carries the same bytes. -/
def cstring_new (s : List Nat) : Option (List Nat) :=
  if s.contains 0 then Option.none else some s

/-- The `result!` macro (src/lib.rs): maps the native return code to
`Ok(())` on `MPV_ERROR_SUCCESS` and to `Err(Error::new(e))` otherwise. -/
def result (e : Int) : RRes Unit :=
  if e = mpv_error_MPV_ERROR_SUCCESS then .ok () else .err e

/-! ### The `Node` value type (src/node.rs)

`Node::Array(Vec<Node>)` and `Node::Map(HashMap<String, Node>)` are
modelled with the isomorphic mutually-inductive list types `NodeList` and
`NodeEntries`; a `HashMap` value is represented by its entry sequence in
iteration order, and `HashMap` construction from an iterator is modelled
by `hmCollect` below. -/

mutual

inductive Node where
| None : Node
| String (s : List Nat) : Node
| Int (v : Int) : Node
| Double (d : F64) : Node
| Bool (b : Bool) : Node
| ByteArray (data : List Nat) : Node
| Array (xs : NodeList) : Node
| Map (es : NodeEntries) : Node
deriving DecidableEq

inductive NodeList where
| nil : NodeList
| cons (hd : Node) (tl : NodeList) : NodeList
deriving DecidableEq

inductive NodeEntries where
| nil : NodeEntries
| cons (key : List Nat) (val : Node) (tl : NodeEntries) : NodeEntries
deriving DecidableEq

end

/-- The keys of an entry sequence, in order. -/
def entryKeys : NodeEntries → List (List Nat)
| .nil => []
| .cons k _ tl => k :: entryKeys tl

/-- `HashMap` insertion: replace the value of an existing key in place,
otherwise append the new binding. -/
def hmInsert (k : List Nat) (v : Node) : NodeEntries → NodeEntries
| .nil => .cons k v .nil
| .cons k' v' tl => if k = k' then .cons k' v tl else .cons k' v' (hmInsert k v tl)

/-- Left fold of `hmInsert` over an entry sequence. -/
def hmFold : NodeEntries → NodeEntries → NodeEntries
| acc, .nil => acc
| acc, .cons k v tl => hmFold (hmInsert k v acc) tl

/-- `HashMap::from_iter` / `collect()` over (key, value) pairs: inserts
each pair in order, so a later duplicate key overwrites the earlier
binding. -/
def hmCollect (es : NodeEntries) : NodeEntries := hmFold .nil es

/-! ### The native `mpv_node` tagged union

A `mpv_node` is a format tag plus a union payload. The union invariant
(spec §3: the format tag fully determines which member is valid) is not
enforced by the type: decode arms read the member selected by the tag and,
where the payload does not have that shape (unreachable under the
invariant, undefined behaviour in C), the model returns `Node.None`.
`MpvUnion.list` carries the `mpv_node_list` record whose `values` buffer
is what the ABI declares and `from_mpv_node` reads: an array of `num`
inline `mpv_node` structs; the `keys` array is null for arrays and, for
maps, an array of possibly-null C-string pointers. The `num` field is
implicit as the list length. `MpvUnion.listPtrs` is the same record with
a `values` buffer holding an array of `num` POINTERS to `mpv_node` - the
layout `to_mpv_node` actually builds (`Box<[*mut mpv_node]>` cast to
`*mut mpv_node`), which is not the inline array the field's type means;
reading it as one is the layout bug recorded by claim C1. -/

mutual

inductive MpvNode where
| mk (format : Nat) (u : MpvUnion) : MpvNode
deriving DecidableEq

inductive MpvUnion where
| str (p : Option (List Nat)) : MpvUnion
| int64 (v : Int) : MpvUnion
| double (d : F64) : MpvUnion
| flag (v : Int) : MpvUnion
| list (values : MpvNodeList) (keys : Option (List (Option (List Nat)))) : MpvUnion
| listPtrs (values : MpvNodeList) (keys : Option (List (Option (List Nat)))) : MpvUnion
| ba (data : List Nat) : MpvUnion
deriving DecidableEq

inductive MpvNodeList where
| nil : MpvNodeList
| cons (hd : MpvNode) (tl : MpvNodeList) : MpvNodeList
deriving DecidableEq

end

/-- The format tag of a native node. -/
def MpvNode.format : MpvNode → Nat
| .mk f _ => f

/-- The union payload of a native node. -/
def MpvNode.u : MpvNode → MpvUnion
| .mk _ u => u

/-- The values array as a plain list. -/
def MpvNodeList.toList : MpvNodeList → List MpvNode
| .nil => []
| .cons hd tl => hd :: tl.toList

/-! ### Decoding: `from_mpv_node` (src/node.rs) -/

/-- The string arm of `from_mpv_node`:
`CStr::from_ptr(node.u.string).to_string_lossy()`. The fall-through cases
(null string pointer, or a union not holding a string) are undefined
behaviour in the source under the violated union invariant; the model
totalizes them to `Node.None`. -/
def decode_string : MpvUnion → Node
| .str (some bytes) => Node.String (utf8Lossy bytes)
| _ => Node.None

/-- The int64 arm of `from_mpv_node`: `Node::Int(node.u.int64)` (punned
reads totalized to `Node.None`, see `decode_string`). -/
def decode_int64 : MpvUnion → Node
| .int64 v => Node.Int v
| _ => Node.None

/-- The double arm of `from_mpv_node` (punned reads totalized to
`Node.None`, see `decode_string`). -/
def decode_double : MpvUnion → Node
| .double d => Node.Double d
| _ => Node.None

/-- The flag arm of `from_mpv_node`: `Node::Bool(node.u.flag != 0)`
(punned reads totalized to `Node.None`, see `decode_string`). -/
def decode_flag : MpvUnion → Node
| .flag v => Node.Bool (v != 0)
| _ => Node.None

/-- The byte-array arm of `from_mpv_node`: copy out `size` bytes from the
`mpv_byte_array` record (punned reads totalized to `Node.None`, see
`decode_string`). -/
def decode_ba : MpvUnion → Node
| .ba data => Node.ByteArray data
| _ => Node.None

mutual

/-- `from_mpv_node`: dispatch on the format tag; strings are decoded with
`to_string_lossy`, map entries with a null key pointer are skipped and the
rest collected into a `HashMap`, unrecognized tags yield `Node::None`. -/
def from_mpv_node : MpvNode → Node
| .mk f u =>
  if f = mpv_format_MPV_FORMAT_STRING then decode_string u
  else if f = mpv_format_MPV_FORMAT_INT64 then decode_int64 u
  else if f = mpv_format_MPV_FORMAT_DOUBLE then decode_double u
  else if f = mpv_format_MPV_FORMAT_FLAG then decode_flag u
  else if f = mpv_format_MPV_FORMAT_NODE_ARRAY then decode_array u
  else if f = mpv_format_MPV_FORMAT_NODE_MAP then decode_map u
  else if f = mpv_format_MPV_FORMAT_BYTE_ARRAY then decode_ba u
  else Node.None

/-- The node-array arm of `from_mpv_node`: read the `mpv_node_list` record
and decode each of its `num` values recursively. Punned reads - including
an `MpvUnion.listPtrs` buffer, whose pointer bytes the source would
misread as inline nodes - are undefined and totalized to `Node.None`, see
`decode_string`. -/
def decode_array : MpvUnion → Node
| .list values _ => Node.Array (from_mpv_list values)
| _ => Node.None

/-- The node-map arm of `from_mpv_node`: zip the keys array with the
values array, drop null keys, decode recursively, and collect into a
`HashMap`. Punned reads - a null keys array (undefined for a map node) or
an `MpvUnion.listPtrs` buffer, whose pointer bytes the source would
misread as inline nodes - are undefined and totalized to `Node.None`, see
`decode_string`. -/
def decode_map : MpvUnion → Node
| .list values (some keys) => Node.Map (hmCollect (from_mpv_entries keys values))
| _ => Node.None

/-- `values.iter_mut().map(from_mpv_node).collect()`. -/
def from_mpv_list : MpvNodeList → NodeList
| .nil => .nil
| .cons v tl => .cons (from_mpv_node v) (from_mpv_list tl)

/-- `keys.iter().zip(values.iter_mut()).filter_map(...)`: pair each key
pointer with its value, drop pairs with a null key, decode the key with
`to_string_lossy` and the value recursively. -/
def from_mpv_entries : List (Option (List Nat)) → MpvNodeList → NodeEntries
| [], _ => .nil
| _ :: _, .nil => .nil
| Option.none :: ks, .cons _ vs => from_mpv_entries ks vs
| some kb :: ks, .cons v vs =>
  .cons (utf8Lossy kb) (from_mpv_node v) (from_mpv_entries ks vs)

end

/-! ### Encoding: `to_mpv_node` (src/node.rs)

`to_mpv_node` returns a fresh heap node, or panics (modelled as
`Option.none`) when `CString::new` meets an embedded NUL in a
`Node::String` payload or a `Node::Map` key. -/

mutual

/-- `to_mpv_node`: builds the native node for each variant; `None` leaves
the zero-initialized union, strings and map keys go through
`CString::new(..).expect(..)` (a panic on embedded NUL), arrays get a null
`keys` array, maps a parallel array of owned key pointers, byte arrays a
`malloc`-ed copy of the bytes. The Array/Map arms collect
`Vec<*mut mpv_node>` (each element a pointer to the boxed encoded child)
and store `Box::into_raw(values.into_boxed_slice()) as *mut mpv_node` in
the record's `values` field - an array of node pointers, `.listPtrs`, not
the inline node array the field's ABI type and `from_mpv_node` expect
(the layout bug of claim C1). -/
def to_mpv_node : Node → Option MpvNode
| .None => some (.mk mpv_format_MPV_FORMAT_NONE (.int64 0))
| .String s =>
  match cstring_new s with
  | Option.none => Option.none
  | some cs => some (.mk mpv_format_MPV_FORMAT_STRING (.str (some cs)))
| .Int v => some (.mk mpv_format_MPV_FORMAT_INT64 (.int64 v))
| .Double d => some (.mk mpv_format_MPV_FORMAT_DOUBLE (.double d))
| .Bool b => some (.mk mpv_format_MPV_FORMAT_FLAG (.flag (if b then 1 else 0)))
| .ByteArray data => some (.mk mpv_format_MPV_FORMAT_BYTE_ARRAY (.ba data))
| .Array xs =>
  match to_mpv_list xs with
  | Option.none => Option.none
  | some vs => some (.mk mpv_format_MPV_FORMAT_NODE_ARRAY (.listPtrs vs Option.none))
| .Map es =>
  match to_mpv_entries es with
  | Option.none => Option.none
  | some (ks, vs) => some (.mk mpv_format_MPV_FORMAT_NODE_MAP (.listPtrs vs (some ks)))

/-- `arr.iter().map(to_mpv_node).collect()`, with panic propagation: the
encoded children behind the collected `Vec<*mut mpv_node>` pointers. -/
def to_mpv_list : NodeList → Option MpvNodeList
| .nil => some .nil
| .cons v tl =>
  match to_mpv_node v with
  | Option.none => Option.none
  | some nv =>
    match to_mpv_list tl with
    | Option.none => Option.none
    | some ntl => some (.cons nv ntl)

/-- The map arm's `map(...).unzip()`: per entry, first
`CString::new(key).expect(..)` then `to_mpv_node(value)`, accumulating a
parallel keys array (all entries non-null) and values array. -/
def to_mpv_entries : NodeEntries → Option (List (Option (List Nat)) × MpvNodeList)
| .nil => some ([], .nil)
| .cons k v tl =>
  match cstring_new k with
  | Option.none => Option.none
  | some ck =>
    match to_mpv_node v with
    | Option.none => Option.none
    | some nv =>
      match to_mpv_entries tl with
      | Option.none => Option.none
      | some (ks, vs) => some (some ck :: ks, .cons nv vs)

end

/-! ### The `Format` trait (src/format.rs)

The untyped `*const c_void` data pointer is modelled as
`CPtr := Option CVal`: `Option.none` is a null pointer, and `CVal` is the
typed content of the pointed-to region (a C int, an int64, a double, a
region holding a possibly-null `char*`, or an `mpv_node`). Reading a
region at the wrong type is undefined behaviour in the source and maps to
`RRes.panic` here. The marshalling callbacks mutate the region they are
handed; a callback is modelled as `CVal → RRes CVal`, returning the
updated region content on success. -/

inductive CVal where
| vstrptr (p : Option (List Nat)) : CVal
| vint (v : Int) : CVal
| vint64 (v : Int) : CVal
| vdouble (d : F64) : CVal
| vnode (n : MpvNode) : CVal
deriving DecidableEq

/-- A possibly-null `*const c_void`. -/
abbrev CPtr := Option CVal

/-- The `Format` trait: a format tag plus the three marshalling
operations. -/
structure Format (α : Type) where
  MPV_FORMAT : Nat
  from_ptr : CPtr → RRes α
  to_mpv : α → (CVal → RRes Unit) → RRes Unit
  from_mpv : (CVal → RRes CVal) → RRes α

/-- `impl Format for String` (tag 1): `from_ptr` reads a `char*` region
and UTF-8-validates it (`to_str()?`), `to_mpv` stages a `CString`
(embedded NUL becomes `Err(GENERIC)` via `?`), `from_mpv` hands the native
call a null `char*` slot, then validates and frees the returned buffer. -/
def stringFormat : Format (List Nat) where
  MPV_FORMAT := 1
  from_ptr := fun p =>
    match p with
    | some (.vstrptr (some bytes)) =>
      if isValidUtf8 bytes then .ok bytes else .err mpv_error_MPV_ERROR_GENERIC
    | _ => .panic
  to_mpv := fun s f =>
    match cstring_new s with
    | Option.none => .err mpv_error_MPV_ERROR_GENERIC
    | some cs => f (.vstrptr (some cs))
  from_mpv := fun f =>
    match f (.vstrptr Option.none) with
    | .ok (.vstrptr (some bytes)) =>
      if isValidUtf8 bytes then .ok bytes else .err mpv_error_MPV_ERROR_GENERIC
    | .ok _ => .panic
    | .err e => .err e
    | .panic => .panic

/-- `impl Format for bool` (tag 3): a 4-byte C int, nonzero meaning true. -/
def boolFormat : Format Bool where
  MPV_FORMAT := 3
  from_ptr := fun p =>
    match p with
    | some (.vint v) => .ok (v != 0)
    | _ => .panic
  to_mpv := fun b f => f (.vint (if b then 1 else 0))
  from_mpv := fun f =>
    match f (.vint 0) with
    | .ok (.vint v) => .ok (v != 0)
    | .ok _ => .panic
    | .err e => .err e
    | .panic => .panic

/-- `impl Format for i64` (tag 4). -/
def i64Format : Format Int where
  MPV_FORMAT := 4
  from_ptr := fun p =>
    match p with
    | some (.vint64 v) => .ok v
    | _ => .panic
  to_mpv := fun v f => f (.vint64 v)
  from_mpv := fun f =>
    match f (.vint64 0) with
    | .ok (.vint64 v) => .ok v
    | .ok _ => .panic
    | .err e => .err e
    | .panic => .panic

/-- `impl Format for f64` (tag 5). -/
def f64Format : Format F64 where
  MPV_FORMAT := 5
  from_ptr := fun p =>
    match p with
    | some (.vdouble d) => .ok d
    | _ => .panic
  to_mpv := fun d f => f (.vdouble d)
  from_mpv := fun f =>
    match f (.vdouble ⟨0⟩) with
    | .ok (.vdouble d) => .ok d
    | .err e => .err e
    | _ => .panic

/-- `impl Format for Node` (tag 6): `from_ptr` checks the pointer for null
first and returns `Ok(Node::None)` in that case; otherwise it decodes the
pointed-to node (and releases it with `mpv_free_node_contents`, a no-op of
the value model). `from_mpv` stages a zero-initialized node
`{ format: MPV_FORMAT_NONE, u: int64 0 }`. -/
def nodeFormat : Format Node where
  MPV_FORMAT := 6
  from_ptr := fun p =>
    match p with
    | Option.none => .ok Node.None
    | some (.vnode n) => .ok (from_mpv_node n)
    | some _ => .panic
  to_mpv := fun v f =>
    match to_mpv_node v with
    | Option.none => .panic
    | some n => f (.vnode n)
  from_mpv := fun f =>
    match f (.vnode (.mk mpv_format_MPV_FORMAT_NONE (.int64 0))) with
    | .ok (.vnode n) => .ok (from_mpv_node n)
    | .err e => .err e
    | _ => .panic

/-! ### Property records and `Property::data` (src/lib.rs) -/

/-- The native `mpv_event_property` record: property name, stored format
tag, data pointer. -/
structure mpv_event_property where
  name : Option (List Nat)
  format : Nat
  data : CPtr
deriving DecidableEq

/-- `Property::data::<T>()`: compare the record's stored format tag with
`T::MPV_FORMAT`; only on equality read the payload via `T::from_ptr`,
discarding errors with `.ok()`. -/
def Property.data {α : Type} (F : Format α) (p : mpv_event_property) : Option α :=
  if p.format = F.MPV_FORMAT then (F.from_ptr p.data).toOption else Option.none

/-! ### Event records and the event decoder (src/lib.rs)

Event discriminants are from the repository's `mpv_event_id` declaration
(src/ffi.rs). -/

/-- `mpv_event_id::SHUTDOWN` (src/ffi.rs). -/
def mpv_event_id_MPV_EVENT_SHUTDOWN : Int := 1

/-- `mpv_event_id::LOG_MESSAGE` (src/ffi.rs). -/
def mpv_event_id_MPV_EVENT_LOG_MESSAGE : Int := 2

/-- `mpv_event_id::GET_PROPERTY_REPLY` (src/ffi.rs). -/
def mpv_event_id_MPV_EVENT_GET_PROPERTY_REPLY : Int := 3

/-- `mpv_event_id::SET_PROPERTY_REPLY` (src/ffi.rs). -/
def mpv_event_id_MPV_EVENT_SET_PROPERTY_REPLY : Int := 4

/-- `mpv_event_id::COMMAND_REPLY` (src/ffi.rs). -/
def mpv_event_id_MPV_EVENT_COMMAND_REPLY : Int := 5

/-- `mpv_event_id::START_FILE` (src/ffi.rs). -/
def mpv_event_id_MPV_EVENT_START_FILE : Int := 6

/-- `mpv_event_id::END_FILE` (src/ffi.rs). -/
def mpv_event_id_MPV_EVENT_END_FILE : Int := 7

/-- `mpv_event_id::FILE_LOADED` (src/ffi.rs). -/
def mpv_event_id_MPV_EVENT_FILE_LOADED : Int := 8

/-- `mpv_event_id::CLIENT_MESSAGE` (src/ffi.rs). -/
def mpv_event_id_MPV_EVENT_CLIENT_MESSAGE : Int := 16

/-- `mpv_event_id::VIDEO_RECONFIG` (src/ffi.rs). -/
def mpv_event_id_MPV_EVENT_VIDEO_RECONFIG : Int := 17

/-- `mpv_event_id::AUDIO_RECONFIG` (src/ffi.rs). -/
def mpv_event_id_MPV_EVENT_AUDIO_RECONFIG : Int := 18

/-- `mpv_event_id::SEEK` (src/ffi.rs). -/
def mpv_event_id_MPV_EVENT_SEEK : Int := 20

/-- `mpv_event_id::PLAYBACK_RESTART` (src/ffi.rs). -/
def mpv_event_id_MPV_EVENT_PLAYBACK_RESTART : Int := 21

/-- `mpv_event_id::PROPERTY_CHANGE` (src/ffi.rs). -/
def mpv_event_id_MPV_EVENT_PROPERTY_CHANGE : Int := 22

/-- `mpv_event_id::QUEUE_OVERFLOW` (src/ffi.rs). -/
def mpv_event_id_MPV_EVENT_QUEUE_OVERFLOW : Int := 24

/-- `mpv_event_id::HOOK` (src/ffi.rs). -/
def mpv_event_id_MPV_EVENT_HOOK : Int := 25

/-- The native `mpv_event_log_message` record (the prefix string field is
omitted: no accessor of the layer under verification reads it). -/
structure mpv_event_log_message where
  level : Option (List Nat)
  text : Option (List Nat)
  log_level : Int
deriving DecidableEq

/-- The native `mpv_event_start_file` record. -/
structure mpv_event_start_file where
  playlist_entry_id : Int
deriving DecidableEq

/-- The native `mpv_event_end_file` record. -/
structure mpv_event_end_file where
  reason : Int
  error : Int
  playlist_entry_id : Int
deriving DecidableEq

/-- The native `mpv_event_client_message` record: the `args` array of
possibly-null C strings, `num_args` implicit as its length. -/
structure mpv_event_client_message where
  args : List (Option (List Nat))
deriving DecidableEq

/-- The native `mpv_event_hook` record. -/
structure mpv_event_hook where
  name : Option (List Nat)
  id : Nat
deriving DecidableEq

/-- The shape of the untyped event payload, as selected by the
discriminant. -/
inductive EventData where
| prop (p : mpv_event_property) : EventData
| log (m : mpv_event_log_message) : EventData
| startFile (s : mpv_event_start_file) : EventData
| endFile (e : mpv_event_end_file) : EventData
| clientMsg (c : mpv_event_client_message) : EventData
| hook (h : mpv_event_hook) : EventData
deriving DecidableEq

/-- The native `mpv_event` record: discriminant, error code, correlation
id, payload pointer. -/
structure mpv_event where
  event_id : Int
  error : Int
  reply_userdata : Nat
  data : Option EventData
deriving DecidableEq

/-- The safe `Event` enum (src/lib.rs). Payload wrappers (`Property`,
`LogMessage`, ...) wrap the raw record pointer; here they carry the
pointed-to record. -/
inductive Event where
| None : Event
| Shutdown : Event
| LogMessage (m : mpv_event_log_message) : Event
| GetPropertyReply (res : RRes Unit) (reply : Nat) (p : mpv_event_property) : Event
| SetPropertyReply (res : RRes Unit) (reply : Nat) : Event
| CommandReply (res : RRes Unit) (reply : Nat) : Event
| StartFile (s : mpv_event_start_file) : Event
| EndFile (e : mpv_event_end_file) : Event
| FileLoaded : Event
| ClientMessage (c : mpv_event_client_message) : Event
| VideoReconfig : Event
| AudioReconfig : Event
| Seek : Event
| PlaybackRestart : Event
| PropertyChange (reply : Nat) (p : mpv_event_property) : Event
| QueueOverflow : Event
| Hook (reply : Nat) (h : mpv_event_hook) : Event
deriving DecidableEq

/-- `Event::from_ptr` (src/lib.rs): dispatch on the discriminant; payload
wrappers assert a non-null payload of the right shape (`Option.none` marks
that assertion/precondition failure); every unmatched discriminant falls
to `Event::None`. -/
def Event.from_ptr (e : mpv_event) : Option Event :=
  if e.event_id = mpv_event_id_MPV_EVENT_SHUTDOWN then some .Shutdown
  else if e.event_id = mpv_event_id_MPV_EVENT_LOG_MESSAGE then
    match e.data with
    | some (.log m) => some (.LogMessage m)
    | _ => Option.none
  else if e.event_id = mpv_event_id_MPV_EVENT_GET_PROPERTY_REPLY then
    match e.data with
    | some (.prop p) => some (.GetPropertyReply (result e.error) e.reply_userdata p)
    | _ => Option.none
  else if e.event_id = mpv_event_id_MPV_EVENT_SET_PROPERTY_REPLY then
    some (.SetPropertyReply (result e.error) e.reply_userdata)
  else if e.event_id = mpv_event_id_MPV_EVENT_COMMAND_REPLY then
    some (.CommandReply (result e.error) e.reply_userdata)
  else if e.event_id = mpv_event_id_MPV_EVENT_START_FILE then
    match e.data with
    | some (.startFile s) => some (.StartFile s)
    | _ => Option.none
  else if e.event_id = mpv_event_id_MPV_EVENT_END_FILE then
    match e.data with
    | some (.endFile ef) => some (.EndFile ef)
    | _ => Option.none
  else if e.event_id = mpv_event_id_MPV_EVENT_FILE_LOADED then some .FileLoaded
  else if e.event_id = mpv_event_id_MPV_EVENT_CLIENT_MESSAGE then
    match e.data with
    | some (.clientMsg c) => some (.ClientMessage c)
    | _ => Option.none
  else if e.event_id = mpv_event_id_MPV_EVENT_VIDEO_RECONFIG then some .VideoReconfig
  else if e.event_id = mpv_event_id_MPV_EVENT_AUDIO_RECONFIG then some .AudioReconfig
  else if e.event_id = mpv_event_id_MPV_EVENT_SEEK then some .Seek
  else if e.event_id = mpv_event_id_MPV_EVENT_PLAYBACK_RESTART then some .PlaybackRestart
  else if e.event_id = mpv_event_id_MPV_EVENT_PROPERTY_CHANGE then
    match e.data with
    | some (.prop p) => some (.PropertyChange e.reply_userdata p)
    | _ => Option.none
  else if e.event_id = mpv_event_id_MPV_EVENT_QUEUE_OVERFLOW then some .QueueOverflow
  else if e.event_id = mpv_event_id_MPV_EVENT_HOOK then
    match e.data with
    | some (.hook h) => some (.Hook e.reply_userdata h)
    | _ => Option.none
  else some .None

/-! ### The handle facade (src/lib.rs)

The native calls themselves are external; each facade operation is
parameterized by the native function it wraps (which returns an
`mpv_error` code). -/

/-- `args.into_iter().map(|s| CString::new(s).unwrap()).collect()`: the
argument vector of `Handle::command`/`command_async`; `Option.none` is the
`unwrap` panic on the first argument with an embedded NUL. -/
def cstrings : List (List Nat) → Option (List (List Nat))
| [] => some []
| a :: as =>
  match cstring_new a with
  | Option.none => Option.none
  | some ca =>
    match cstrings as with
    | Option.none => Option.none
    | some cas => some (ca :: cas)

/-- `Handle::command`: every argument goes through
`CString::new(..).unwrap()` - a panic on embedded NUL - then the
null-terminated pointer array is handed to `mpv_command` and the return
code goes through `result!`. -/
def command (native : List (List Nat) → Int) (args : List (List Nat)) : RRes Unit :=
  match cstrings args with
  | Option.none => .panic
  | some cargs => result (native cargs)

/-- `Handle::command_async`: as `command`, with the correlation id. -/
def command_async (native : Nat → List (List Nat) → Int) (reply : Nat)
    (args : List (List Nat)) : RRes Unit :=
  match cstrings args with
  | Option.none => .panic
  | some cargs => result (native reply cargs)

/-- `Handle::set_property`: the property name goes through
`CString::new(..)?` (embedded NUL becomes `Err(GENERIC)`), then
`data.to_mpv` stages the value and invokes the native set call with
`T::MPV_FORMAT`. -/
def set_property {α : Type} (F : Format α)
    (native : List Nat → Nat → CVal → Int) (name : List Nat) (data : α) : RRes Unit :=
  match cstring_new name with
  | Option.none => .err mpv_error_MPV_ERROR_GENERIC
  | some cname => F.to_mpv data (fun d => result (native cname F.MPV_FORMAT d))

/-! ### Error display (src/error.rs) -/

/-- Modelled from the spec: the native `mpv_error_string` lookup (external
to this crate; §6 requires a human-readable description for each code of
the closed error-code set, and the source's `Display` impl falls back to
"unknown error" when the lookup yields invalid text). -/
def mpv_error_string (code : Int) : String :=
  if code = 0 then "success"
  else if code = -1 then "event queue full"
  else if code = -2 then "memory allocation failed"
  else if code = -3 then "core not uninitialized"
  else if code = -4 then "invalid parameter"
  else if code = -5 then "option not found"
  else if code = -6 then "unsupported format for accessing option"
  else if code = -7 then "error setting option"
  else if code = -8 then "property not found"
  else if code = -9 then "unsupported format for accessing property"
  else if code = -10 then "property unavailable"
  else if code = -11 then "error accessing property"
  else if code = -12 then "error running command"
  else if code = -13 then "loading failed"
  else if code = -14 then "audio output initialization failed"
  else if code = -15 then "video output initialization failed"
  else if code = -16 then "no audio or video data played"
  else if code = -17 then "unrecognized file format"
  else if code = -18 then "operation not supported"
  else if code = -19 then "not implemented"
  else if code = -20 then "unspecified error"
  else "unknown error"

/-- `impl fmt::Display for Error` (src/error.rs):
`write!(f, "[{}] {}", code, mpv_error_string(code))`. -/
def Error.display (code : Int) : String :=
  "[" ++ toString code ++ "] " ++ mpv_error_string code

/-! ### Auxiliary lemmas about `HashMap` collection -/

/-- Concatenation of entry sequences. -/
def entriesAppend : NodeEntries → NodeEntries → NodeEntries
| .nil, es => es
| .cons k v tl, es => .cons k v (entriesAppend tl es)

theorem entriesAppend_nil : ∀ es, entriesAppend es .nil = es
| .nil => rfl
| .cons k v tl => congrArg (NodeEntries.cons k v) (entriesAppend_nil tl)

theorem entriesAppend_assoc :
    ∀ a b c, entriesAppend (entriesAppend a b) c = entriesAppend a (entriesAppend b c)
| .nil, _, _ => rfl
| .cons k v tl, b, c => congrArg (NodeEntries.cons k v) (entriesAppend_assoc tl b c)

theorem entryKeys_append :
    ∀ a b, entryKeys (entriesAppend a b) = entryKeys a ++ entryKeys b
| .nil, _ => rfl
| .cons k _ tl, b => congrArg (List.cons k) (entryKeys_append tl b)

theorem hmInsert_of_notMem :
    ∀ (k : List Nat) (v : Node) (acc : NodeEntries), k ∉ entryKeys acc →
      hmInsert k v acc = entriesAppend acc (.cons k v .nil)
| _, _, .nil, _ => rfl
| k, v, .cons k' v' tl, h => by
  simp only [entryKeys, List.mem_cons, not_or] at h
  rw [hmInsert, if_neg h.1, hmInsert_of_notMem k v tl h.2]
  rfl

theorem hmFold_of_disjoint :
    ∀ (es acc : NodeEntries), (entryKeys es).Nodup →
      (∀ x ∈ entryKeys es, x ∉ entryKeys acc) →
      hmFold acc es = entriesAppend acc es
| .nil, acc, _, _ => (entriesAppend_nil acc).symm
| .cons k v tl, acc, hd, hdisj => by
  simp only [entryKeys, List.nodup_cons] at hd
  have hk : k ∉ entryKeys acc := hdisj k (List.mem_cons_self _ _)
  have hdisj2 : ∀ x ∈ entryKeys tl, x ∉ entryKeys (entriesAppend acc (.cons k v .nil)) := by
    intro x hx
    rw [entryKeys_append]
    simp only [List.mem_append, entryKeys, List.mem_cons, List.not_mem_nil, or_false, not_or]
    exact ⟨hdisj x (List.mem_cons_of_mem _ hx), fun he => hd.1 (he ▸ hx)⟩
  rw [hmFold, hmInsert_of_notMem k v acc hk,
    hmFold_of_disjoint tl (entriesAppend acc (.cons k v .nil)) hd.2 hdisj2,
    entriesAppend_assoc]
  rfl

/-- Collecting an entry sequence with pairwise-distinct keys into a
`HashMap` preserves it. -/
theorem hmCollect_of_nodup :
    ∀ es : NodeEntries, (entryKeys es).Nodup → hmCollect es = es := by
  intro es h
  unfold hmCollect
  rw [hmFold_of_disjoint es .nil h (by intro x _; simp [entryKeys])]
  rfl

/-! ### The map-decoding arm as a zip/filter_map -/

/-- An entry sequence from a plain list of pairs. -/
def entriesOfList : List (List Nat × Node) → NodeEntries
| [] => .nil
| (k, v) :: tl => .cons k v (entriesOfList tl)

/-- `from_mpv_entries` is exactly
`keys.zip(values).filter_map(|(k, v)| k.map(|kb| (lossy kb, decode v)))`. -/
theorem from_mpv_entries_eq_zip :
    ∀ (ks : List (Option (List Nat))) (vs : MpvNodeList),
      from_mpv_entries ks vs =
        entriesOfList ((ks.zip vs.toList).filterMap
          (fun kv => kv.1.map (fun kb => (utf8Lossy kb, from_mpv_node kv.2)))) := by
  intro ks vs
  induction ks generalizing vs with
  | nil => cases vs <;> rfl
  | cons k ks ih =>
    cases vs with
    | nil => cases k <;> rfl
    | cons v vs =>
      cases k with
      | none =>
        simpa [from_mpv_entries, MpvNodeList.toList, List.zip] using ih vs
      | some kb =>
        simp [from_mpv_entries, MpvNodeList.toList, entriesOfList, List.zip, ih vs]

/-! ### `CString::new` on NUL-free and NUL-carrying input -/

theorem cstring_new_of_noNul {s : List Nat} (h : s.contains 0 = false) :
    cstring_new s = some s := by
  unfold cstring_new
  rw [h]
  rfl

theorem cstring_new_of_nul {s : List Nat} (h : s.contains 0 = true) :
    cstring_new s = Option.none := by
  unfold cstring_new
  rw [h]
  rfl

/-! ### Embedded-NUL helpers -/

/-- Some entry of the sequence has a key with an embedded NUL byte. -/
def entriesHaveNulKey : NodeEntries → Bool
| .nil => false
| .cons k _ tl => k.contains 0 || entriesHaveNulKey tl

theorem cstrings_of_nul :
    ∀ args : List (List Nat), (args.any fun s => s.contains 0) = true →
      cstrings args = Option.none := by
  intro args h
  induction args with
  | nil => simp at h
  | cons a as ih =>
    simp only [List.any_cons, Bool.or_eq_true] at h
    rcases h with ha | has
    · simp only [cstrings, cstring_new_of_nul ha]
    · cases hca : cstring_new a with
      | none => simp only [cstrings, hca]
      | some ca => simp only [cstrings, hca, ih has]

theorem to_mpv_entries_of_nulKey :
    ∀ es : NodeEntries, entriesHaveNulKey es = true → to_mpv_entries es = Option.none
| .nil, h => by rw [entriesHaveNulKey] at h; simp at h
| .cons k v tl, h => by
  rw [entriesHaveNulKey] at h
  simp only [Bool.or_eq_true] at h
  rcases h with hk | htl
  · simp only [to_mpv_entries, cstring_new_of_nul hk]
  · cases hck : cstring_new k with
    | none => simp [to_mpv_entries, hck]
    | some ck =>
      cases hxv : to_mpv_node v with
      | none => simp [to_mpv_entries, hck, hxv]
      | some nv => simp [to_mpv_entries, hck, hxv, to_mpv_entries_of_nulKey tl htl]

/-! ### The claims -/

/-- C1 (code bug): the spec's round-trip is the intent - `from_mpv_node`
is the paired decoder of the same module - but `to_mpv_node`'s Array/Map
arms collect `Vec<*mut mpv_node>` and store
`Box::into_raw(values.into_boxed_slice()) as *mut mpv_node` in
`mpv_node_list.values`: an array of node pointers (`.listPtrs`) where the
ABI and `from_mpv_node` (`slice::from_raw_parts_mut(list.values, num)`)
expect an array of inline `mpv_node` structs. Decoding the encoding of
any nonempty `Array` or `Map` therefore misreads pointer bytes as nodes -
undefined behaviour, totalized to `Node.None` like every type-punned
read - and can never reproduce the input. Evaluated here at `Int(1)`
(scalars round-trip), at the failing input `Array([Int(1)])`, and at the
spec §8 scenario map `{"a": Int(1), "b": [String("x"), Bool(true)]}`. -/
theorem C1_layout_bug :
    Option.map from_mpv_node (to_mpv_node (Node.Int 1)) = some (Node.Int 1) ∧
    to_mpv_node (Node.Array (.cons (Node.Int 1) .nil)) =
      some (.mk mpv_format_MPV_FORMAT_NODE_ARRAY
        (.listPtrs (.cons (.mk mpv_format_MPV_FORMAT_INT64 (.int64 1)) .nil)
          Option.none)) ∧
    Option.map from_mpv_node (to_mpv_node (Node.Array (.cons (Node.Int 1) .nil))) ≠
      some (Node.Array (.cons (Node.Int 1) .nil)) ∧
    Option.map from_mpv_node (to_mpv_node (Node.Map (.cons [97] (Node.Int 1)
      (.cons [98] (Node.Array (.cons (Node.String [120])
        (.cons (Node.Bool true) .nil))) .nil)))) ≠
      some (Node.Map (.cons [97] (Node.Int 1)
      (.cons [98] (Node.Array (.cons (Node.String [120])
        (.cons (Node.Bool true) .nil))) .nil))) := by
  decide

/-- C2 (counterexample): `Handle::command` on an argument with an embedded
NUL does not return the generic error `-20`; it panics
(`CString::new(..).unwrap()`). -/
theorem C2_counterexample :
    command (fun _ => 0) [[97, 0, 98]] = RRes.panic ∧
    command (fun _ => 0) [[97, 0, 98]] ≠ RRes.err mpv_error_MPV_ERROR_GENERIC := by
  decide

/-- C2 (amended): for application-supplied strings with an embedded NUL,
`set_property` returns `Err` with the generic error code `-20` - both for
the property name (any format) and for a `String` value - whereas
`Handle::command` and `Handle::command_async` panic on such an argument,
and `to_mpv_node` panics on such a `Node::String` payload or `Node::Map`
key. -/
theorem C2_nul_amended :
    (∀ (α : Type) (F : Format α) (native : List Nat → Nat → CVal → Int)
        (name : List Nat) (data : α), name.contains 0 = true →
        set_property F native name data = .err mpv_error_MPV_ERROR_GENERIC) ∧
    (∀ (native : List Nat → Nat → CVal → Int) (name s : List Nat),
        name.contains 0 = false → s.contains 0 = true →
        set_property stringFormat native name s = .err mpv_error_MPV_ERROR_GENERIC) ∧
    (∀ (native : List (List Nat) → Int) (args : List (List Nat)),
        (args.any fun s => s.contains 0) = true → command native args = .panic) ∧
    (∀ (native : Nat → List (List Nat) → Int) (reply : Nat) (args : List (List Nat)),
        (args.any fun s => s.contains 0) = true →
        command_async native reply args = .panic) ∧
    (∀ s : List Nat, s.contains 0 = true → to_mpv_node (Node.String s) = Option.none) ∧
    (∀ es : NodeEntries, entriesHaveNulKey es = true →
        to_mpv_node (Node.Map es) = Option.none) := by
  refine ⟨?_, ?_, ?_, ?_, ?_, ?_⟩
  · intro α F native name data h
    simp only [set_property, cstring_new_of_nul h]
  · intro native name s hname hs
    simp only [set_property, cstring_new_of_noNul hname, stringFormat]
    rw [cstring_new_of_nul hs]
  · intro native args h
    simp only [command, cstrings_of_nul args h]
  · intro native reply args h
    simp only [command_async, cstrings_of_nul args h]
  · intro s h
    simp only [to_mpv_node, cstring_new_of_nul h]
  · intro es h
    simp only [to_mpv_node, to_mpv_entries_of_nulKey es h]

/-- C2 witness: each amended branch at a concrete NUL-carrying input. -/
theorem C2_nul_amended_witness :
    set_property stringFormat (fun _ _ _ => 0) [0] [] = .err mpv_error_MPV_ERROR_GENERIC ∧
    set_property stringFormat (fun _ _ _ => 0) [97] [0] = .err mpv_error_MPV_ERROR_GENERIC ∧
    command (fun _ => 0) [[0]] = .panic ∧
    command_async (fun _ _ => 0) 7 [[0]] = .panic ∧
    to_mpv_node (Node.String [0]) = Option.none ∧
    to_mpv_node (Node.Map (.cons [0] Node.None .nil)) = Option.none :=
  ⟨C2_nul_amended.1 (List Nat) stringFormat (fun _ _ _ => 0) [0] [] (by decide),
   C2_nul_amended.2.1 (fun _ _ _ => 0) [97] [0] (by decide) (by decide),
   C2_nul_amended.2.2.1 (fun _ => 0) [[0]] (by decide),
   C2_nul_amended.2.2.2.1 (fun _ _ => 0) 7 [[0]] (by decide),
   C2_nul_amended.2.2.2.2.1 [0] (by decide),
   C2_nul_amended.2.2.2.2.2 (.cons [0] Node.None .nil) (by decide)⟩

/-- C3 (counterexample): the string arm of `from_mpv_node` does not return
an error on invalid UTF-8 - it decodes lossily and produces a value: on
the single byte `0xFF` it yields `Node::String("\u{FFFD}")`. -/
theorem C3_counterexample :
    from_mpv_node (.mk mpv_format_MPV_FORMAT_STRING (.str (some [255]))) =
      Node.String [0xEF, 0xBF, 0xBD] := by decide

/-- C3 (amended): for byte sequences that are not valid UTF-8,
`String::from_ptr` and `String::from_mpv` return an error carrying the
generic error code `-20`, whereas the string arm of `from_mpv_node`
never errors: it produces `Node::String` of the lossy decoding. -/
theorem C3_utf8_amended :
    ∀ bytes : List Nat, isValidUtf8 bytes = false →
      stringFormat.from_ptr (some (.vstrptr (some bytes))) =
        .err mpv_error_MPV_ERROR_GENERIC ∧
      stringFormat.from_mpv (fun _ => .ok (.vstrptr (some bytes))) =
        .err mpv_error_MPV_ERROR_GENERIC ∧
      from_mpv_node (.mk mpv_format_MPV_FORMAT_STRING (.str (some bytes))) =
        Node.String (utf8Lossy bytes) := by
  intro bytes h
  refine ⟨?_, ?_, rfl⟩
  · simp [stringFormat, h]
  · simp [stringFormat, h]

/-- C3 witness: the amended claim at the invalid byte sequence `[0xFF]`. -/
theorem C3_utf8_amended_witness :
    stringFormat.from_ptr (some (.vstrptr (some [255]))) =
      .err mpv_error_MPV_ERROR_GENERIC ∧
    stringFormat.from_mpv (fun _ => .ok (.vstrptr (some [255]))) =
      .err mpv_error_MPV_ERROR_GENERIC ∧
    from_mpv_node (.mk mpv_format_MPV_FORMAT_STRING (.str (some [255]))) =
      Node.String (utf8Lossy [255]) :=
  C3_utf8_amended [255] (by decide)

/-- C4: the static format tags of the five `Format` implementations are
1 (String), 3 (bool), 4 (i64), 5 (f64) and 6 (Node); and whenever
`to_mpv_node v` produces a node, its format tag is the one matching `v`'s
variant: the static scalar tag for `None`/`String`/`Int`/`Double`/`Bool`/
`ByteArray`, the node-array tag for `Array`, the node-map tag for `Map`. -/
theorem C4_format_tags :
    stringFormat.MPV_FORMAT = 1 ∧ boolFormat.MPV_FORMAT = 3 ∧
    i64Format.MPV_FORMAT = 4 ∧ f64Format.MPV_FORMAT = 5 ∧
    nodeFormat.MPV_FORMAT = 6 ∧
    ∀ (v : Node) (n : MpvNode), to_mpv_node v = some n →
      n.format = (match v with
        | .None => mpv_format_MPV_FORMAT_NONE
        | .String _ => mpv_format_MPV_FORMAT_STRING
        | .Int _ => mpv_format_MPV_FORMAT_INT64
        | .Double _ => mpv_format_MPV_FORMAT_DOUBLE
        | .Bool _ => mpv_format_MPV_FORMAT_FLAG
        | .ByteArray _ => mpv_format_MPV_FORMAT_BYTE_ARRAY
        | .Array _ => mpv_format_MPV_FORMAT_NODE_ARRAY
        | .Map _ => mpv_format_MPV_FORMAT_NODE_MAP) := by
  refine ⟨rfl, rfl, rfl, rfl, rfl, ?_⟩
  intro v n h
  cases v with
  | None =>
    obtain rfl := Option.some_inj.mp h
    rfl
  | String s =>
    cases hcs : cstring_new s with
    | none =>
      simp only [to_mpv_node, hcs] at h
      exact Option.noConfusion h
    | some cs =>
      simp only [to_mpv_node, hcs] at h
      obtain rfl := Option.some_inj.mp h
      rfl
  | Int v => obtain rfl := Option.some_inj.mp h; rfl
  | Double d => obtain rfl := Option.some_inj.mp h; rfl
  | Bool b => obtain rfl := Option.some_inj.mp h; rfl
  | ByteArray data => obtain rfl := Option.some_inj.mp h; rfl
  | Array xs =>
    cases hx : to_mpv_list xs with
    | none =>
      simp only [to_mpv_node, hx] at h
      exact Option.noConfusion h
    | some vs =>
      simp only [to_mpv_node, hx] at h
      obtain rfl := Option.some_inj.mp h
      rfl
  | Map es =>
    cases hx : to_mpv_entries es with
    | none =>
      simp only [to_mpv_node, hx] at h
      exact Option.noConfusion h
    | some p =>
      obtain ⟨ks, vs⟩ := p
      simp only [to_mpv_node, hx] at h
      obtain rfl := Option.some_inj.mp h
      rfl

/-- C4 witness: encoding `Node::Int(5)` carries the int64 tag. -/
theorem C4_format_tags_witness :
    to_mpv_node (Node.Int 5) = some (.mk 4 (.int64 5)) ∧
    (MpvNode.mk 4 (.int64 5)).format = mpv_format_MPV_FORMAT_INT64 :=
  ⟨by decide,
   C4_format_tags.2.2.2.2.2 (Node.Int 5) (.mk 4 (.int64 5)) (by decide)⟩

/-- C5: for every event record whose discriminant lies outside the known
set of event discriminants, `Event::from_ptr` yields the `Event::None`
marker, regardless of error code, correlation id or payload pointer. -/
theorem C5_unknown_event :
    ∀ e : mpv_event,
      e.event_id ∉ ([mpv_event_id_MPV_EVENT_SHUTDOWN,
        mpv_event_id_MPV_EVENT_LOG_MESSAGE,
        mpv_event_id_MPV_EVENT_GET_PROPERTY_REPLY,
        mpv_event_id_MPV_EVENT_SET_PROPERTY_REPLY,
        mpv_event_id_MPV_EVENT_COMMAND_REPLY,
        mpv_event_id_MPV_EVENT_START_FILE,
        mpv_event_id_MPV_EVENT_END_FILE,
        mpv_event_id_MPV_EVENT_FILE_LOADED,
        mpv_event_id_MPV_EVENT_CLIENT_MESSAGE,
        mpv_event_id_MPV_EVENT_VIDEO_RECONFIG,
        mpv_event_id_MPV_EVENT_AUDIO_RECONFIG,
        mpv_event_id_MPV_EVENT_SEEK,
        mpv_event_id_MPV_EVENT_PLAYBACK_RESTART,
        mpv_event_id_MPV_EVENT_PROPERTY_CHANGE,
        mpv_event_id_MPV_EVENT_QUEUE_OVERFLOW,
        mpv_event_id_MPV_EVENT_HOOK] : List Int) →
      Event.from_ptr e = some Event.None := by
  intro e h
  simp only [List.mem_cons, List.not_mem_nil, or_false, not_or] at h
  obtain ⟨h1, h2, h3, h4, h5, h6, h7, h8, h9, h10, h11, h12, h13, h14, h15, h16⟩ := h
  unfold Event.from_ptr
  rw [if_neg h1, if_neg h2, if_neg h3, if_neg h4, if_neg h5, if_neg h6, if_neg h7,
    if_neg h8, if_neg h9, if_neg h10, if_neg h11, if_neg h12, if_neg h13, if_neg h14,
    if_neg h15, if_neg h16]

/-- C5 witness: discriminant 11 (the deprecated `IDLE` event, unmatched by
the decoder) with a failing error code, a correlation id and a null
payload maps to `Event::None`. -/
theorem C5_unknown_event_witness :
    Event.from_ptr ⟨11, -5, 42, Option.none⟩ = some Event.None :=
  C5_unknown_event ⟨11, -5, 42, Option.none⟩ (by decide)

/-- C6: for every native node whose format tag is not one of the
recognized tags (string, int64, double, flag, node-array, node-map,
byte-array), `from_mpv_node` returns `Node::None` whatever the union
payload holds. -/
theorem C6_unknown_format :
    ∀ (f : Nat) (u : MpvUnion),
      f ∉ ([mpv_format_MPV_FORMAT_STRING, mpv_format_MPV_FORMAT_INT64,
        mpv_format_MPV_FORMAT_DOUBLE, mpv_format_MPV_FORMAT_FLAG,
        mpv_format_MPV_FORMAT_NODE_ARRAY, mpv_format_MPV_FORMAT_NODE_MAP,
        mpv_format_MPV_FORMAT_BYTE_ARRAY] : List Nat) →
      from_mpv_node (.mk f u) = Node.None := by
  intro f u h
  simp only [List.mem_cons, List.not_mem_nil, or_false, not_or] at h
  obtain ⟨hs, hi, hd, hf, ha, hm, hb⟩ := h
  rw [from_mpv_node]
  rw [if_neg hs, if_neg hi, if_neg hd, if_neg hf, if_neg ha, if_neg hm, if_neg hb]

/-- C6 witness: tag 2 (the native OSD-string tag, unrecognized by this
decoder) with an int64 payload decodes to `Node::None`. -/
theorem C6_unknown_format_witness :
    from_mpv_node (.mk 2 (.int64 7)) = Node.None :=
  C6_unknown_format 2 (.int64 7) (by decide)

/-- C7 (counterexample): decoding a map node whose two entries share the
key "a" yields a map holding only the second binding - the `HashMap`
collection lets the later duplicate overwrite the earlier - so the result
does not contain exactly the (key, value) pairs of the non-null-key
entries. -/
theorem C7_counterexample :
    from_mpv_node (.mk mpv_format_MPV_FORMAT_NODE_MAP
      (.list (.cons (.mk mpv_format_MPV_FORMAT_INT64 (.int64 1))
        (.cons (.mk mpv_format_MPV_FORMAT_INT64 (.int64 2)) .nil))
        (some [some [97], some [97]]))) =
      Node.Map (.cons [97] (Node.Int 2) .nil) ∧
    Node.Map (.cons [97] (Node.Int 2) .nil) ≠
      Node.Map (.cons [97] (Node.Int 1) (.cons [97] (Node.Int 2) .nil)) := by
  decide

/-- C7 (amended): decoding a map node always produces a `Node::Map`
(never a failure or abort, also on null key pointers), and when the
decoded keys of the non-null-key entries are pairwise distinct the result
contains exactly the (key, decoded value) pairs of the entries with a
non-null key pointer, in order - entries with a null key are silently
dropped. With duplicate keys the later binding overwrites the earlier
one. -/
theorem C7_map_decode_amended :
    (∀ (vs : MpvNodeList) (ks : List (Option (List Nat))),
      ∃ es, from_mpv_node (.mk mpv_format_MPV_FORMAT_NODE_MAP (.list vs (some ks))) =
        Node.Map es) ∧
    (∀ (vs : MpvNodeList) (ks : List (Option (List Nat))),
      (entryKeys (from_mpv_entries ks vs)).Nodup →
      from_mpv_node (.mk mpv_format_MPV_FORMAT_NODE_MAP (.list vs (some ks))) =
        Node.Map (entriesOfList ((ks.zip vs.toList).filterMap
          (fun kv => kv.1.map (fun kb => (utf8Lossy kb, from_mpv_node kv.2)))))) := by
  constructor
  · intro vs ks
    exact ⟨_, rfl⟩
  · intro vs ks h
    rw [show from_mpv_node (.mk mpv_format_MPV_FORMAT_NODE_MAP (.list vs (some ks))) =
      Node.Map (hmCollect (from_mpv_entries ks vs)) from rfl]
    rw [hmCollect_of_nodup _ h, from_mpv_entries_eq_zip]

/-- C7 witness: a three-entry map node whose middle key pointer is null
decodes to the two-entry map of the non-null-key pairs. -/
theorem C7_map_decode_witness :
    (entryKeys (from_mpv_entries [some [97], Option.none, some [98]]
      (.cons (.mk 4 (.int64 1)) (.cons (.mk 4 (.int64 2))
        (.cons (.mk 4 (.int64 3)) .nil))))).Nodup ∧
    from_mpv_node (.mk mpv_format_MPV_FORMAT_NODE_MAP
      (.list (.cons (.mk 4 (.int64 1)) (.cons (.mk 4 (.int64 2))
        (.cons (.mk 4 (.int64 3)) .nil)))
        (some [some [97], Option.none, some [98]]))) =
      Node.Map (.cons [97] (Node.Int 1) (.cons [98] (Node.Int 3) .nil)) :=
  ⟨by decide,
   (C7_map_decode_amended.2 (.cons (.mk 4 (.int64 1)) (.cons (.mk 4 (.int64 2))
      (.cons (.mk 4 (.int64 3)) .nil))) [some [97], Option.none, some [98]]
      (by decide)).trans (by decide)⟩

/-- C8: `Property::data::<T>` returns `None` whenever the record's stored
format tag differs from `T::MPV_FORMAT` (without reading the payload:
the result is `None` for every payload), and it returns a value only when
the record's tag equals `T`'s tag. -/
theorem C8_property_data :
    ∀ (α : Type) (F : Format α) (p : mpv_event_property),
      (p.format ≠ F.MPV_FORMAT → Property.data F p = Option.none) ∧
      (∀ x : α, Property.data F p = some x → p.format = F.MPV_FORMAT) := by
  intro α F p
  constructor
  · intro h
    simp [Property.data, h]
  · intro x hx
    by_contra hne
    simp [Property.data, hne] at hx

/-- C8 witness: the spec §8 scenario - a property record with format tag 4
read as boolean (tag 3) yields no value, whatever payload it carries. -/
theorem C8_property_data_witness :
    Property.data boolFormat ⟨some [97], 4, some (.vint64 7)⟩ = Option.none :=
  (C8_property_data Bool boolFormat ⟨some [97], 4, some (.vint64 7)⟩).1 (by decide)

/-- C9: the `result!` macro maps code 0 to `Ok(())` and every non-zero
code `e` to `Err(Error(e))` preserving `e`; in particular a native call
returning -8 (property not found) surfaces as a structured error with
numeric code exactly -8, whose displayed message is a non-empty string. -/
theorem C9_error_mapping :
    result 0 = .ok () ∧
    (∀ e : Int, e ≠ 0 → result e = .err e) ∧
    result (-8) = .err (-8) ∧
    mpv_error_MPV_ERROR_PROPERTY_NOT_FOUND = -8 ∧
    Error.display (-8) ≠ "" := by
  refine ⟨rfl, ?_, by decide, rfl, by decide⟩
  intro e h
  simp [result, mpv_error_MPV_ERROR_SUCCESS, h]

/-- C9 witness: the general mapping applied at code -8. -/
theorem C9_error_mapping_witness :
    result (-8) = .err (-8) :=
  C9_error_mapping.2.1 (-8) (by decide)

/-- C10: `<Node as Format>::from_ptr` applied to a null payload pointer
returns `Ok(Node::None)` instead of dereferencing the pointer. -/
theorem C10_node_null_ptr :
    nodeFormat.from_ptr Option.none = .ok Node.None := rfl

end Mpv
